import Mathlib

/-!
Shallow embedding of the SFTP web gateway (`src/app.py`): the client wrapper
`SFTPClient`, its HTTP route handlers, and a model of the environment they
run against (the paramiko transport and the remote filesystem it reaches).
Python strings are modelled as lists of Unicode code points, remote file
contents as lists of bytes, and Python exceptions as an inductive type
mirroring the exception classes the source distinguishes.
-/

/-- The code points of a Lean string, modelling a Python `str` value. -/
def pyStr (s : String) : List Nat := s.toList.map Char.toNat

/-- Model of the Python exception values that `app.py` distinguishes in its
`except` clauses.  In Python 3, `FileNotFoundError`, `FileExistsError`,
`PermissionError` and `TimeoutError` are subclasses of `OSError`, and
`IOError` is an alias of `OSError`; paramiko's `AuthenticationException` is a
subclass of `SSHException`, which is not an `OSError`. -/
inductive PyExc where
  | fileNotFound (msg : String)
  | fileExists (msg : String)
  | permission (msg : String)
  | osError (msg : String)
  | timeout (msg : String)
  | authentication (msg : String)
  | ssh (msg : String)
  | other (name msg : String)
deriving DecidableEq

/-- Python `str(e)`: the message carried by the exception. -/
def excMsg : PyExc → String
  | .fileNotFound m => m
  | .fileExists m => m
  | .permission m => m
  | .osError m => m
  | .timeout m => m
  | .authentication m => m
  | .ssh m => m
  | .other _ m => m

/-- Python `type(e).__name__`. -/
def excTypeName : PyExc → String
  | .fileNotFound _ => "FileNotFoundError"
  | .fileExists _ => "FileExistsError"
  | .permission _ => "PermissionError"
  | .osError _ => "OSError"
  | .timeout _ => "TimeoutError"
  | .authentication _ => "AuthenticationException"
  | .ssh _ => "SSHException"
  | .other n _ => n

/-- Whether the exception is caught by `except OSError` / `except IOError`. -/
def isOSErrorExc : PyExc → Bool
  | .fileNotFound _ => true
  | .fileExists _ => true
  | .permission _ => true
  | .osError _ => true
  | .timeout _ => true
  | _ => false

/-! ### Path joining (`SFTPClient._join_path`)

The source computes `'/'.join(parts)` and then repeatedly runs
`path = path.replace('//', '/')` while `'//' in path`.  We model one
`str.replace('//', '/')` pass (non-overlapping, left to right) and the
surrounding `while` loop on the character list of the string. -/

/-- One pass of Python `path.replace('//', '/')`: replaces non-overlapping
occurrences of two consecutive slashes by one, scanning left to right. -/
def replaceDS : List Char → List Char
  | [] => []
  | [c] => [c]
  | a :: b :: rest =>
    if a = '/' ∧ b = '/' then '/' :: replaceDS rest
    else a :: replaceDS (b :: rest)

/-- Python `'//' in path`: the string has two consecutive slashes. -/
def hasDS : List Char → Bool
  | [] => false
  | [_] => false
  | a :: b :: rest => (a = '/' && b = '/') || hasDS (b :: rest)

theorem replaceDS_length_le (l : List Char) : (replaceDS l).length ≤ l.length := by
  induction l using replaceDS.induct with
  | case1 => simp [replaceDS]
  | case2 c => simp [replaceDS]
  | case3 a b rest h ih =>
    simp only [replaceDS, if_pos h, List.length_cons]
    omega
  | case4 a b rest h ih =>
    simp only [replaceDS, if_neg h, List.length_cons]
    simp only [List.length_cons] at ih
    omega

theorem replaceDS_length_lt (l : List Char) (h : hasDS l = true) :
    (replaceDS l).length < l.length := by
  induction l using replaceDS.induct with
  | case1 => simp [hasDS] at h
  | case2 c => simp [hasDS] at h
  | case3 a b rest hc ih =>
    have := replaceDS_length_le rest
    simp only [replaceDS, if_pos hc, List.length_cons]
    omega
  | case4 a b rest hc ih =>
    simp only [hasDS, Bool.or_eq_true, Bool.and_eq_true, decide_eq_true_eq] at h
    rcases h with h | h
    · exact absurd ⟨h.1, h.2⟩ hc
    · have := ih h
      simp only [replaceDS, if_neg hc, List.length_cons]
      simp only [List.length_cons] at this ⊢
      omega

/-- The `while '//' in path: path = path.replace('//', '/')` loop from
`SFTPClient._join_path`. -/
def collapseLoop (l : List Char) : List Char :=
  if h : hasDS l = true then collapseLoop (replaceDS l) else l
termination_by l.length
decreasing_by exact replaceDS_length_lt l h

/-- Reference form of slash collapsing: a single left-to-right pass that
keeps one slash per maximal run of consecutive slashes. -/
def squeezeSlashes : List Char → List Char
  | [] => []
  | [c] => [c]
  | a :: b :: rest =>
    if a = '/' ∧ b = '/' then squeezeSlashes ('/' :: rest)
    else a :: squeezeSlashes (b :: rest)
termination_by l => l.length

/-- `SFTPClient._join_path` from `src/app.py`: joins parts with forward
slashes and collapses runs of slashes via the replace loop. -/
def SFTPClient.join_path (parts : List String) : String :=
  String.mk (collapseLoop (String.intercalate "/" parts).toList)


/-! ### UTF-8 (the Python codec used by `read_file` / `write_file`)

`write_file` sends a `str` through paramiko, which encodes it as UTF-8;
`read_file` reads the raw bytes and runs `data.decode('utf-8',
errors='replace')`.  We model bytes as natural numbers below 256 and code
points as natural numbers, with a total decoder that emits U+FFFD for
rejected bytes as Python's `replace` handler does. -/

/-- A Unicode scalar value: what a Python `str` code point must be for the
UTF-8 codec to encode it (surrogates are rejected). -/
def validScalar (c : Nat) : Bool :=
  decide (c < 1114112) && !(decide (55296 ≤ c) && decide (c < 57344))

/-- UTF-8 encoding of one code point. -/
def utf8EncodeCP (c : Nat) : List Nat :=
  if c < 128 then [c]
  else if c < 2048 then [192 + c / 64, 128 + c % 64]
  else if c < 65536 then [224 + c / 4096, 128 + c / 64 % 64, 128 + c % 64]
  else [240 + c / 262144, 128 + c / 4096 % 64, 128 + c / 64 % 64, 128 + c % 64]

/-- UTF-8 encoding of a code-point sequence. -/
def utf8Encode : List Nat → List Nat
  | [] => []
  | c :: cs => utf8EncodeCP c ++ utf8Encode cs

/-- Allowed first-continuation ranges: lower bound, indexed by the lead byte
(this is where overlong forms and surrogates are rejected). -/
def contLo (b : Nat) : Nat :=
  if b = 224 then 160 else if b = 240 then 144 else 128

/-- Allowed first-continuation ranges: upper bound, indexed by the lead byte. -/
def contHi (b : Nat) : Nat :=
  if b = 237 then 159 else if b = 244 then 143 else 191

/-- Decode one code point: given the lead byte and the remaining bytes,
return the code point produced (U+FFFD = 65533 on error) and how many
further bytes were consumed.  An invalid continuation byte is not consumed,
matching the resynchronisation of Python's `replace` error handler. -/
def decodeOne (b : Nat) (rest : List Nat) : Nat × Nat :=
  if b < 128 then (b, 0)
  else if 194 ≤ b ∧ b ≤ 223 then
    match rest with
    | c1 :: _ =>
      if 128 ≤ c1 ∧ c1 ≤ 191 then ((b - 192) * 64 + (c1 - 128), 1)
      else (65533, 0)
    | [] => (65533, 0)
  else if 224 ≤ b ∧ b ≤ 239 then
    match rest with
    | c1 :: c2 :: _ =>
      if contLo b ≤ c1 ∧ c1 ≤ contHi b then
        if 128 ≤ c2 ∧ c2 ≤ 191 then
          ((b - 224) * 4096 + (c1 - 128) * 64 + (c2 - 128), 2)
        else (65533, 1)
      else (65533, 0)
    | [c1] => if contLo b ≤ c1 ∧ c1 ≤ contHi b then (65533, 1) else (65533, 0)
    | [] => (65533, 0)
  else if 240 ≤ b ∧ b ≤ 244 then
    match rest with
    | c1 :: c2 :: c3 :: _ =>
      if contLo b ≤ c1 ∧ c1 ≤ contHi b then
        if 128 ≤ c2 ∧ c2 ≤ 191 then
          if 128 ≤ c3 ∧ c3 ≤ 191 then
            ((b - 240) * 262144 + (c1 - 128) * 4096 + (c2 - 128) * 64 + (c3 - 128), 3)
          else (65533, 2)
        else (65533, 1)
      else (65533, 0)
    | [c1, c2] =>
      if contLo b ≤ c1 ∧ c1 ≤ contHi b then
        if 128 ≤ c2 ∧ c2 ≤ 191 then (65533, 2) else (65533, 1)
      else (65533, 0)
    | [c1] => if contLo b ≤ c1 ∧ c1 ≤ contHi b then (65533, 1) else (65533, 0)
    | [] => (65533, 0)
  else (65533, 0)

/-- Python `bytes.decode('utf-8', errors='replace')`. -/
def utf8DecodeReplace : List Nat → List Nat
  | [] => []
  | b :: rest =>
    (decodeOne b rest).1 :: utf8DecodeReplace (rest.drop (decodeOne b rest).2)
termination_by l => l.length
decreasing_by simp [List.length_drop]; omega


/-! ### Remote filesystem and SFTP transport model

The paramiko channel and the remote server are outside the repository; the
claims describe how `app.py` reacts to their responses.  We model the remote
filesystem as an association list from absolute path strings to nodes and
give each SFTP primitive the behaviour of a POSIX-style SFTP server
(`FileNotFoundError` for absent paths, an `OSError` whose text contains
"not empty" for `rmdir` on a non-empty directory, and so on). -/

/-- A node of the remote filesystem: a regular file with its bytes, or a
directory. -/
inductive Node where
  | file (content : List Nat)
  | dir
deriving DecidableEq

/-- The remote filesystem: an association list from absolute paths to nodes
(first binding wins).  The list order is also the arbitrary order in which
the server enumerates directory entries. -/
abbrev RFS := List (String × Node)

def lookupNode : RFS → String → Option Node
  | [], _ => none
  | (q, n) :: rest, p => if q = p then some n else lookupNode rest p

def eraseNode (fs : RFS) (p : String) : RFS :=
  fs.filter (fun e => e.1 != p)

def setNode (fs : RFS) (p : String) (n : Node) : RFS :=
  (p, n) :: eraseNode fs p

/-- Whether the directory at `p` has at least one entry below it. -/
def dirNonempty (fs : RFS) (p : String) : Bool :=
  fs.any (fun e => (p ++ "/").isPrefixOf e.1)

/-- The direct-child name of `k` within directory `p`, when there is one. -/
def childName (p k : String) : Option String :=
  let pref := if p.endsWith "/" then p else p ++ "/"
  if pref.isPrefixOf k then
    let rest := k.drop pref.length
    if rest ≠ "" ∧ ¬ (rest.contains '/') then some rest else none
  else none

/-- Python `stat.S_ISDIR`: the file-type bits of the mode word (bits 12-15,
the `0o170000` mask) equal `0o040000`, i.e. the type nibble is 4. -/
def S_ISDIR (m : Nat) : Bool := (m / 4096) % 16 == 4

/-- Mode word reported by the model server (0o100644 for files, 0o40755 for
directories). -/
def nodeMode : Node → Nat
  | .file _ => 33188
  | .dir => 16877

def nodeSize : Node → Nat
  | .file bs => bs.length
  | .dir => 0

/-- The attribute record paramiko returns from `stat`. -/
structure StatAttr where
  st_size : Nat
  st_mtime : Nat
  st_mode : Nat
deriving DecidableEq

/-- The attribute record paramiko returns from `listdir_attr`. -/
structure SFTPAttr where
  filename : String
  st_mode : Nat
  st_size : Nat
  st_mtime : Nat
deriving DecidableEq

/-- `sftp.stat(path)`. -/
def sftpStat (fs : RFS) (p : String) : Except PyExc StatAttr :=
  match lookupNode fs p with
  | some n => .ok ⟨nodeSize n, 0, nodeMode n⟩
  | none => .error (.fileNotFound p)

/-- `sftp.listdir_attr(path)`: the entries of a directory, in the server's
arbitrary enumeration order (here: the association-list order). -/
def sftpListdirAttr (fs : RFS) (p : String) : Except PyExc (List SFTPAttr) :=
  match lookupNode fs p with
  | some .dir =>
    .ok (fs.filterMap (fun e =>
      (childName p e.1).map (fun nm => ⟨nm, nodeMode e.2, nodeSize e.2, 0⟩)))
  | some (.file _) => .error (.osError "Not a directory")
  | none => .error (.fileNotFound p)

/-- `sftp.open(path, 'rb')` followed by a full read: the bytes of the file. -/
def sftpReadAll (fs : RFS) (p : String) : Except PyExc (List Nat) :=
  match lookupNode fs p with
  | some (.file bs) => .ok bs
  | some .dir => .error (.osError "Failure")
  | none => .error (.fileNotFound p)

/-- `sftp.open(path, 'w')` followed by writing all bytes. -/
def sftpWriteAll (fs : RFS) (p : String) (bs : List Nat) : Except PyExc RFS :=
  match lookupNode fs p with
  | some .dir => .error (.osError "Failure")
  | _ => .ok (setNode fs p (.file bs))

/-- `sftp.mkdir(path)`. -/
def sftpMkdir (fs : RFS) (p : String) : Except PyExc RFS :=
  match lookupNode fs p with
  | some _ => .error (.fileExists p)
  | none => .ok (setNode fs p .dir)

/-- `sftp.rmdir(path)`: directory removal; a non-empty directory makes the
server report a failure whose text contains "not empty". -/
def sftpRmdir (fs : RFS) (p : String) : Except PyExc RFS :=
  match lookupNode fs p with
  | some .dir =>
    if dirNonempty fs p then .error (.osError "Directory not empty")
    else .ok (eraseNode fs p)
  | some (.file _) => .error (.osError "Not a directory")
  | none => .error (.fileNotFound p)

/-- `sftp.remove(path)`: file removal. -/
def sftpUnlink (fs : RFS) (p : String) : Except PyExc RFS :=
  match lookupNode fs p with
  | some (.file _) => .ok (eraseNode fs p)
  | some .dir => .error (.osError "Failure")
  | none => .error (.fileNotFound p)

/-- `sftp.rename(old, new)`. -/
def sftpRename (fs : RFS) (old new : String) : Except PyExc RFS :=
  match lookupNode fs old with
  | some n => .ok (setNode (eraseNode fs old) new n)
  | none => .error (.fileNotFound old)

/-- `sftp.get(remote, local)`: the bytes transferred into the local file. -/
def sftpGet (fs : RFS) (p : String) : Except PyExc (List Nat) :=
  sftpReadAll fs p

/-- `sftp.put(local, remote)`. -/
def sftpPut (fs : RFS) (bs : List Nat) (p : String) : Except PyExc RFS :=
  sftpWriteAll fs p bs

/-- One call on the SFTP transport, for tracing which network operations a
request performs. -/
inductive TCall where
  | statT (p : String)
  | listdirT (p : String)
  | openReadT (p : String)
  | openWriteT (p : String)
  | mkdirT (p : String)
  | rmdirT (p : String)
  | unlinkT (p : String)
  | renameT (old new : String)
  | getT (p : String)
  | putT (p : String)
deriving DecidableEq

/-- The value a Python method returns: a payload, or an error string (the
source signals failures by returning strings that start with "Error:"). -/
inductive PyRet (α : Type) where
  | val (a : α)
  | err (msg : String)
deriving DecidableEq

/-! ### `SFTPClient` methods -/

/-- Python `str.lower()` (ASCII model, as used by the listing comparator). -/
def pyLower (s : String) : String := String.mk (s.toList.map Char.toLower)

/-- Python `needle in hay` on strings. -/
def strContainsSub (hay needle : String) : Bool :=
  hay.toList.tails.any (fun t => needle.toList.isPrefixOf t)

/-- One entry of the listing payload built by `SFTPClient.listdir`. -/
structure ListItem where
  name : String
  path : String
  is_dir : Bool
  size : Nat
  mtime : Nat
deriving DecidableEq

/-- Python `str` comparison: lexicographic in code points. -/
def cpLE : List Nat → List Nat → Bool
  | [], _ => true
  | _ :: _, [] => false
  | a :: as, b :: bs => if a < b then true else if b < a then false else cpLE as bs

/-- The sort key comparison from
`items.sort(key=lambda i: (not i['is_dir'], i['name'].lower()))`:
ascending in the pair (not is_dir, lowercased name), i.e. directories first
and then code-point order on the lowercased names. -/
def itemLE (a b : ListItem) : Bool :=
  if a.is_dir = b.is_dir then cpLE (pyStr (pyLower a.name)) (pyStr (pyLower b.name))
  else a.is_dir

/-- The part of an item the comparator looks at. -/
def itemKey (i : ListItem) : Bool × List Nat := (i.is_dir, pyStr (pyLower i.name))

/-- The dictionary built for one entry in the loop of `SFTPClient.listdir`. -/
def itemOfAttr (path : String) (a : SFTPAttr) : ListItem :=
  { name := a.filename
    path := SFTPClient.join_path [path, a.filename]
    is_dir := S_ISDIR a.st_mode
    size := a.st_size
    mtime := a.st_mtime }

/-- The loop body plus sort of `SFTPClient.listdir`, as a function of the
attribute list the transport returned (in arbitrary transport order). -/
def listdirFromAttrs (path : String) (attrs : List SFTPAttr) : List ListItem :=
  (attrs.map (itemOfAttr path)).mergeSort itemLE

/-- `SFTPClient.listdir` from `src/app.py`. -/
def SFTPClient.listdir (fs : RFS) (path : String) :
    PyRet (List ListItem) × List TCall :=
  match sftpListdirAttr fs path with
  | .ok attrs => (.val (listdirFromAttrs path attrs), [.listdirT path])
  | .error (.fileNotFound _) =>
    (.err ("Error: Directory not found: " ++ path), [.listdirT path])
  | .error (.permission _) =>
    (.err ("Error: Permission denied: " ++ path), [.listdirT path])
  | .error e => (.err ("Error: " ++ excMsg e), [.listdirT path])

/-- `SFTPClient.read_file` from `src/app.py`: returns the decoded content,
or an error string — both are Python `str` values. -/
def SFTPClient.read_file (fs : RFS) (path : String) (max_bytes : Option Nat) :
    List Nat × List TCall :=
  match sftpReadAll fs path with
  | .ok data0 =>
    let data := match max_bytes with
      | none => data0
      | some k => data0.take k
    (utf8DecodeReplace data, [.openReadT path])
  | .error (.fileNotFound _) =>
    (pyStr ("Error: File not found: " ++ path), [.openReadT path])
  | .error (.permission _) =>
    (pyStr ("Error: Permission denied: " ++ path), [.openReadT path])
  | .error e => (pyStr ("Error: " ++ excMsg e), [.openReadT path])

/-- `SFTPClient.write_file` from `src/app.py` for `str` content (the JSON
route always passes a `str`); paramiko encodes it as UTF-8, and a code point
the codec cannot encode (a surrogate) raises, which the generic handler
turns into an error string. -/
def SFTPClient.write_file (fs : RFS) (path : String) (content : List Nat) :
    PyRet Unit × RFS × List TCall :=
  if content.all validScalar then
    match sftpWriteAll fs path (utf8Encode content) with
    | .ok fs2 => (.val (), fs2, [.openWriteT path])
    | .error (.permission _) =>
      (.err ("Error: Permission denied: " ++ path), fs, [.openWriteT path])
    | .error e => (.err ("Error: " ++ excMsg e), fs, [.openWriteT path])
  else
    (.err "Error: utf-8 codec cannot encode character", fs, [.openWriteT path])

/-- `SFTPClient.mkdir` from `src/app.py`. -/
def SFTPClient.mkdir (fs : RFS) (path : String) : PyRet Unit × RFS × List TCall :=
  match sftpMkdir fs path with
  | .ok fs2 => (.val (), fs2, [.mkdirT path])
  | .error (.fileExists _) =>
    (.err ("Error: Directory already exists: " ++ path), fs, [.mkdirT path])
  | .error (.permission _) =>
    (.err ("Error: Permission denied: " ++ path), fs, [.mkdirT path])
  | .error e => (.err ("Error: " ++ excMsg e), fs, [.mkdirT path])

/-- The `except` cascade of `SFTPClient.remove`: `PermissionError` first,
then `OSError` (with the "not empty" text test), then the generic handler. -/
def removeClassify (e : PyExc) (path : String) : PyRet Unit :=
  match e with
  | .permission _ => .err ("Error: Permission denied: " ++ path)
  | e2 =>
    if isOSErrorExc e2 then
      if strContainsSub (pyLower (excMsg e2)) "not empty" then
        .err ("Error: Directory not empty: " ++ path)
      else .err ("Error: " ++ excMsg e2)
    else .err ("Error: " ++ excMsg e2)

/-- `SFTPClient.remove` from `src/app.py`: stat first (`except IOError`
reports "Path not found"), then `rmdir` for directories and `remove` for
files, with the cascade of `removeClassify` around the deletion. -/
def SFTPClient.remove (fs : RFS) (path : String) :
    PyRet Unit × RFS × List TCall :=
  match sftpStat fs path with
  | .error e =>
    if isOSErrorExc e then
      (.err ("Error: Path not found: " ++ path), fs, [.statT path])
    else (.err ("Error: " ++ excMsg e), fs, [.statT path])
  | .ok st =>
    if S_ISDIR st.st_mode then
      match sftpRmdir fs path with
      | .ok fs2 => (.val (), fs2, [.statT path, .rmdirT path])
      | .error e => (removeClassify e path, fs, [.statT path, .rmdirT path])
    else
      match sftpUnlink fs path with
      | .ok fs2 => (.val (), fs2, [.statT path, .unlinkT path])
      | .error e => (removeClassify e path, fs, [.statT path, .unlinkT path])

/-- `SFTPClient.rename` from `src/app.py`. -/
def SFTPClient.rename (fs : RFS) (old new : String) :
    PyRet Unit × RFS × List TCall :=
  match sftpRename fs old new with
  | .ok fs2 => (.val (), fs2, [.renameT old new])
  | .error (.fileNotFound _) =>
    (.err ("Error: File not found: " ++ old), fs, [.renameT old new])
  | .error (.permission _) => (.err "Error: Permission denied", fs, [.renameT old new])
  | .error e => (.err ("Error: " ++ excMsg e), fs, [.renameT old new])

/-- `SFTPClient.upload_local` from `src/app.py`; the local file is given by
its bytes. -/
def SFTPClient.upload_local (fs : RFS) (localBytes : List Nat) (remote_path : String) :
    PyRet Unit × RFS × List TCall :=
  match sftpPut fs localBytes remote_path with
  | .ok fs2 => (.val (), fs2, [.putT remote_path])
  | .error (.permission _) =>
    (.err ("Error: Permission denied: " ++ remote_path), fs, [.putT remote_path])
  | .error e => (.err ("Error: " ++ excMsg e), fs, [.putT remote_path])

/-- `SFTPClient.download_to_local` from `src/app.py`: stat the remote path,
refuse directories, then transfer.  On success the payload is the bytes
written into the local staging file. -/
def SFTPClient.download_to_local (fs : RFS) (remote_path : String) :
    PyRet (List Nat) × List TCall :=
  match sftpStat fs remote_path with
  | .ok st =>
    if S_ISDIR st.st_mode then
      (.err ("Error: '" ++ remote_path ++ "' is a directory"), [.statT remote_path])
    else
      match sftpGet fs remote_path with
      | .ok bs => (.val bs, [.statT remote_path, .getT remote_path])
      | .error (.fileNotFound _) =>
        (.err ("Error: File not found: " ++ remote_path),
          [.statT remote_path, .getT remote_path])
      | .error (.permission _) =>
        (.err ("Error: Permission denied: " ++ remote_path),
          [.statT remote_path, .getT remote_path])
      | .error e =>
        (.err ("Error: " ++ excMsg e), [.statT remote_path, .getT remote_path])
  | .error (.fileNotFound _) =>
    (.err ("Error: File not found: " ++ remote_path), [.statT remote_path])
  | .error (.permission _) =>
    (.err ("Error: Permission denied: " ++ remote_path), [.statT remote_path])
  | .error e => (.err ("Error: " ++ excMsg e), [.statT remote_path])

/-- The record built by `SFTPClient.stat`. -/
structure StatDict where
  size : Nat
  mtime : Nat
  mode : Nat
  is_dir : Bool
deriving DecidableEq

/-- `SFTPClient.stat` from `src/app.py`. -/
def SFTPClient.statOp (fs : RFS) (path : String) : PyRet StatDict × List TCall :=
  match sftpStat fs path with
  | .ok st =>
    (.val ⟨st.st_size, st.st_mtime, st.st_mode, S_ISDIR st.st_mode⟩, [.statT path])
  | .error (.fileNotFound _) =>
    (.err ("Error: Path not found: " ++ path), [.statT path])
  | .error e => (.err ("Error: " ++ excMsg e), [.statT path])

/-! ### Session state and the route layer -/

/-- The state of an `SFTPClient` object: the credentials from the
constructor, whether its two handles (`self.sftp`, `self.client`) are live,
and an environment flag saying whether closing the live handles would raise
(the source swallows such errors). -/
structure SFTPClientState where
  host : String
  port : Nat
  username : String
  password : String
  sftpLive : Bool
  clientLive : Bool
  closeRaises : Bool
deriving DecidableEq

/-- `SFTPClient.close` from `src/app.py`: closes both handles inside a
`try`/`except Exception: pass`.  If closing raises, the error is swallowed
and the handle flags are left as they were. -/
def SFTPClient.close (c : SFTPClientState) : SFTPClientState :=
  if c.closeRaises then c
  else { c with sftpLive := false, clientLive := false }

/-- `SFTPClient.connect` from `src/app.py`: the environment either lets the
connection and channel come up (`none`) or raises an exception, classified
by the `except` cascade (authentication, SSH, timeout, then generic with the
exception type name). -/
def SFTPClient.connect (c : SFTPClientState) (env : Option PyExc) :
    SFTPClientState × PyRet Unit :=
  match env with
  | none => ({ c with sftpLive := true, clientLive := true }, .val ())
  | some (.authentication m) => (c, .err ("Error: Authentication failed - " ++ m))
  | some (.ssh m) => (c, .err ("Error: SSH connection failed - " ++ m))
  | some (.timeout m) => (c, .err ("Error: Connection timeout - " ++ m))
  | some e => (c, .err ("Error: " ++ excTypeName e ++ " - " ++ excMsg e))

/-- Python `os.path.basename` (POSIX): the part after the last slash. -/
def pyBasename (s : String) : String :=
  String.mk ((s.toList.reverse.takeWhile (fun c => c ≠ '/')).reverse)

/-- Python `s.rstrip('/')`. -/
def rstripSlash (s : String) : String :=
  String.mk ((s.toList.reverse.dropWhile (fun c => c = '/')).reverse)

/-- Modelled from the spec: `werkzeug.utils.secure_filename` is an external
collaborator not in the repository; per §4.4 of the spec it sanitizes a
client-supplied filename by stripping directory components before the name
is used as a path segment. -/
def secure_filename (s : String) : String :=
  pyBasename (String.mk (s.toList.map (fun c => if c = '\\' then '/' else c)))

/-- A JSON response payload, named for the operation as the routes do. -/
inductive Payload where
  | nothingP
  | items (l : List ListItem)
  | content (s : List Nat)
  | info (d : StatDict)
  | fileAttachment (download_name : String) (bytes : List Nat)
deriving DecidableEq

/-- An HTTP response from a route: status code, the `success` flag, the
optional `message` field (a Python string) and the payload field. -/
structure Resp where
  status : Nat
  success : Bool
  message : Option (List Nat)
  payload : Payload
deriving DecidableEq

def okResp (p : Payload) : Resp := ⟨200, true, none, p⟩

def okMsgResp (m : String) : Resp := ⟨200, true, some (pyStr m), .nothingP⟩

def errResp (status : Nat) (m : List Nat) : Resp := ⟨status, false, some m, .nothingP⟩

/-- The uniform `jsonify(success=False, message="Not connected"), 400`
response. -/
def notConnectedResp : Resp := errResp 400 (pyStr "Not connected")

/-- A local staging-file event in a route (`tempfile` creation, the write
into the buffer, `os.remove`). -/
inductive LEvent where
  | tmpCreate
  | tmpWrite (bytes : List Nat)
  | tmpDelete
deriving DecidableEq

/-- A request to one of the nine `/api/...` filesystem routes, with the
query/body arguments each route reads (absent arguments are `none`). -/
inductive ApiCall where
  | listA (path : Option String)
  | readA (path : Option String) (maxBytes : Option Nat)
  | writeA (path : Option String) (content : List Nat)
  | mkdirA (path : Option String)
  | removeA (path : Option String)
  | renameA (old new : Option String)
  | uploadA (file : Option (String × List Nat)) (remote_dir : Option String)
  | downloadA (path : Option String)
  | statA (path : Option String)
deriving DecidableEq

/-- Python truthiness of an optional string argument (`not path` is true for
a missing argument and for the empty string). -/
def strFalsy : Option String → Bool
  | none => true
  | some s => s == ""

/-- The outcome of one `/api/...` request: the response, the remote
filesystem afterwards, the transport calls made, and the local staging-file
events. -/
structure RunOut where
  resp : Resp
  fs : RFS
  calls : List TCall
  localEvents : List LEvent
deriving DecidableEq

/-- The nine `/api/...` route handlers from `src/app.py`, each of which
first checks `if sftp_client is None` and otherwise delegates to the
matching `SFTPClient` method. -/
def runApi (call : ApiCall) (client : Option SFTPClientState) (fs : RFS) : RunOut :=
  match call with
  | .listA pathArg =>
    match client with
    | none => ⟨notConnectedResp, fs, [], []⟩
    | some _ =>
      let path := pathArg.getD "/"
      match SFTPClient.listdir fs path with
      | (.val items, tr) => ⟨okResp (.items items), fs, tr, []⟩
      | (.err m, tr) => ⟨errResp 500 (pyStr m), fs, tr, []⟩
  | .readA pathArg maxBytes =>
    match client with
    | none => ⟨notConnectedResp, fs, [], []⟩
    | some _ =>
      if strFalsy pathArg then ⟨errResp 400 (pyStr "Missing path"), fs, [], []⟩
      else
        let path := pathArg.getD ""
        let (result, tr) := SFTPClient.read_file fs path maxBytes
        if (pyStr "Error:").isPrefixOf result then ⟨errResp 500 result, fs, tr, []⟩
        else ⟨okResp (.content result), fs, tr, []⟩
  | .writeA pathArg content =>
    match client with
    | none => ⟨notConnectedResp, fs, [], []⟩
    | some _ =>
      if strFalsy pathArg then ⟨errResp 400 (pyStr "Missing path"), fs, [], []⟩
      else
        let path := pathArg.getD ""
        match SFTPClient.write_file fs path content with
        | (.val _, fs2, tr) => ⟨okResp .nothingP, fs2, tr, []⟩
        | (.err m, fs2, tr) => ⟨errResp 500 (pyStr m), fs2, tr, []⟩
  | .mkdirA pathArg =>
    match client with
    | none => ⟨notConnectedResp, fs, [], []⟩
    | some _ =>
      if strFalsy pathArg then ⟨errResp 400 (pyStr "Missing path"), fs, [], []⟩
      else
        let path := pathArg.getD ""
        match SFTPClient.mkdir fs path with
        | (.val _, fs2, tr) => ⟨okResp .nothingP, fs2, tr, []⟩
        | (.err m, fs2, tr) => ⟨errResp 500 (pyStr m), fs2, tr, []⟩
  | .removeA pathArg =>
    match client with
    | none => ⟨notConnectedResp, fs, [], []⟩
    | some _ =>
      if strFalsy pathArg then ⟨errResp 400 (pyStr "Missing path"), fs, [], []⟩
      else
        let path := pathArg.getD ""
        match SFTPClient.remove fs path with
        | (.val _, fs2, tr) => ⟨okResp .nothingP, fs2, tr, []⟩
        | (.err m, fs2, tr) => ⟨errResp 500 (pyStr m), fs2, tr, []⟩
  | .renameA oldArg newArg =>
    match client with
    | none => ⟨notConnectedResp, fs, [], []⟩
    | some _ =>
      if strFalsy oldArg || strFalsy newArg then
        ⟨errResp 400 (pyStr "Missing old or new path"), fs, [], []⟩
      else
        match SFTPClient.rename fs (oldArg.getD "") (newArg.getD "") with
        | (.val _, fs2, tr) => ⟨okResp .nothingP, fs2, tr, []⟩
        | (.err m, fs2, tr) => ⟨errResp 500 (pyStr m), fs2, tr, []⟩
  | .uploadA fileArg remoteDirArg =>
    match client with
    | none => ⟨notConnectedResp, fs, [], []⟩
    | some _ =>
      match fileArg with
      | none => ⟨errResp 400 (pyStr "No file provided"), fs, [], []⟩
      | some (fname, fileBytes) =>
        if fname == "" then ⟨errResp 400 (pyStr "No file selected"), fs, [], []⟩
        else
          let remote_dir := remoteDirArg.getD "/"
          let filename := secure_filename fname
          let remote_path := rstripSlash remote_dir ++ "/" ++ filename
          match SFTPClient.upload_local fs fileBytes remote_path with
          | (.val _, fs2, tr) =>
            ⟨okResp .nothingP, fs2, tr, [.tmpCreate, .tmpWrite fileBytes, .tmpDelete]⟩
          | (.err m, fs2, tr) =>
            ⟨errResp 500 (pyStr m), fs2, tr, [.tmpCreate, .tmpWrite fileBytes, .tmpDelete]⟩
  | .downloadA pathArg =>
    match client with
    | none => ⟨notConnectedResp, fs, [], []⟩
    | some _ =>
      if strFalsy pathArg then ⟨errResp 400 (pyStr "Missing path"), fs, [], []⟩
      else
        let path := pathArg.getD ""
        match SFTPClient.download_to_local fs path with
        | (.val bs, tr) =>
          ⟨okResp (.fileAttachment (pyBasename path) bs), fs, tr,
            [.tmpCreate, .tmpWrite bs, .tmpDelete]⟩
        | (.err m, tr) =>
          ⟨errResp 500 (pyStr m), fs, tr, [.tmpCreate, .tmpDelete]⟩
  | .statA pathArg =>
    match client with
    | none => ⟨notConnectedResp, fs, [], []⟩
    | some _ =>
      if strFalsy pathArg then ⟨errResp 400 (pyStr "Missing path"), fs, [], []⟩
      else
        let path := pathArg.getD ""
        match SFTPClient.statOp fs path with
        | (.val d, tr) => ⟨okResp (.info d), fs, tr, []⟩
        | (.err m, tr) => ⟨errResp 500 (pyStr m), fs, tr, []⟩

/-- The JSON body of a `/connect` request. -/
structure ConnReq where
  host : Option String
  port : Option Nat
  username : Option String
  password : Option String
deriving DecidableEq

/-- Session-lifecycle events performed by the `/connect` route. -/
inductive CEvent where
  | closedPrev
  | attempted (host : String) (port : Nat) (username : String) (password : String)
deriving DecidableEq

/-- The close-previous-session events of `/connect`. -/
def closeEvs : Option SFTPClientState → List CEvent
  | some _ => [.closedPrev]
  | none => []

/-- `connect_route` from `src/app.py`: validates the credentials, closes any
existing session, creates a new `SFTPClient` and attempts the connection;
on failure the global client is reset to `None`. -/
def connect_route (cur : Option SFTPClientState) (req : ConnReq)
    (env : Option PyExc) : Resp × Option SFTPClientState × List CEvent :=
  if strFalsy req.host || strFalsy req.username || req.password.isNone then
    (errResp 400 (pyStr "host, username and password required"), cur, [])
  else
    let host := req.host.getD ""
    let username := req.username.getD ""
    let password := req.password.getD ""
    let port := req.port.getD 22
    let ev0 := closeEvs cur
    let c0 : SFTPClientState := ⟨host, port, username, password, false, false, false⟩
    let att := CEvent.attempted host port username password
    match SFTPClient.connect c0 env with
    | (c1, .val _) => (okMsgResp "Connected successfully", some c1, ev0 ++ [att])
    | (_, .err m) => (errResp 500 (pyStr m), none, ev0 ++ [att])

/-- `disconnect_route` from `src/app.py`: closes the client if present
(errors swallowed), clears the global, and always returns success. -/
def disconnect_route (cur : Option SFTPClientState) : Resp × Option SFTPClientState :=
  match cur with
  | some c =>
    let _ := SFTPClient.close c
    (⟨200, true, none, .nothingP⟩, none)
  | none => (⟨200, true, none, .nothingP⟩, none)

/-! ### Properties of the path-join loop and the UTF-8 codec -/

theorem replaceDS_two (rest : List Char) :
    replaceDS ('/' :: '/' :: rest) = '/' :: replaceDS rest := by
  simp [replaceDS]

theorem replaceDS_step (a b : Char) (rest : List Char) (h : ¬ (a = '/' ∧ b = '/')) :
    replaceDS (a :: b :: rest) = a :: replaceDS (b :: rest) := by
  simp [replaceDS, h]

theorem squeezeSlashes_nil : squeezeSlashes [] = [] := by
  simp [squeezeSlashes]

theorem squeezeSlashes_one (c : Char) : squeezeSlashes [c] = [c] := by
  simp [squeezeSlashes]

theorem squeezeSlashes_two (rest : List Char) :
    squeezeSlashes ('/' :: '/' :: rest) = squeezeSlashes ('/' :: rest) := by
  simp [squeezeSlashes]

theorem squeezeSlashes_step (a b : Char) (rest : List Char) (h : ¬ (a = '/' ∧ b = '/')) :
    squeezeSlashes (a :: b :: rest) = a :: squeezeSlashes (b :: rest) := by
  simp [squeezeSlashes, h]

theorem collapseLoop_unfold (l : List Char) :
    collapseLoop l = if hasDS l = true then collapseLoop (replaceDS l) else l := by
  rw [collapseLoop]
  by_cases h : hasDS l = true
  · rw [dif_pos h, if_pos h]
  · rw [dif_neg h, if_neg h]

theorem squeezeSlashes_cons_replaceDS (c : Char) (l : List Char) :
    squeezeSlashes (c :: replaceDS l) = squeezeSlashes (c :: l) := by
  induction l using replaceDS.induct generalizing c with
  | case1 => rfl
  | case2 x => rfl
  | case3 a b rest h ih =>
    obtain ⟨ha, hb⟩ := h
    subst ha hb
    rw [replaceDS_two]
    by_cases hc : c = '/'
    · subst hc
      rw [squeezeSlashes_two, ih '/', squeezeSlashes_two, squeezeSlashes_two]
    · rw [squeezeSlashes_step c '/' _ (fun hx => hc hx.1),
        squeezeSlashes_step c '/' _ (fun hx => hc hx.1), ih '/', squeezeSlashes_two]
  | case4 a b rest h ih =>
    rw [replaceDS_step a b rest h]
    by_cases hca : c = '/' ∧ a = '/'
    · obtain ⟨hc, ha⟩ := hca
      subst hc ha
      rw [squeezeSlashes_two, squeezeSlashes_two, ih '/']
    · rw [squeezeSlashes_step c a _ hca, squeezeSlashes_step c a _ hca, ih a]

theorem squeezeSlashes_replaceDS (l : List Char) :
    squeezeSlashes (replaceDS l) = squeezeSlashes l := by
  match l with
  | [] => rfl
  | [c] => rfl
  | a :: b :: rest =>
    by_cases h : a = '/' ∧ b = '/'
    · obtain ⟨ha, hb⟩ := h
      subst ha hb
      rw [replaceDS_two, squeezeSlashes_cons_replaceDS '/' rest, squeezeSlashes_two]
    · rw [replaceDS_step a b rest h, squeezeSlashes_cons_replaceDS a (b :: rest)]

theorem squeezeSlashes_of_not_hasDS (l : List Char) (h : hasDS l = false) :
    squeezeSlashes l = l := by
  induction l using hasDS.induct with
  | case1 => exact squeezeSlashes_nil
  | case2 c => exact squeezeSlashes_one c
  | case3 a b rest ih =>
    simp only [hasDS, Bool.or_eq_false_iff, Bool.and_eq_false_iff] at h
    have hab : ¬ (a = '/' ∧ b = '/') := by
      rcases h.1 with hx | hx
      · exact fun hc => by simp [hc.1] at hx
      · exact fun hc => by simp [hc.2] at hx
    rw [squeezeSlashes_step a b rest hab, ih h.2]

theorem collapseLoop_eq_squeezeSlashes (l : List Char) :
    collapseLoop l = squeezeSlashes l := by
  induction l using collapseLoop.induct with
  | case1 l hl ih =>
    rw [collapseLoop_unfold, if_pos hl, ih, squeezeSlashes_replaceDS]
  | case2 l hl =>
    rw [collapseLoop_unfold, if_neg hl,
      squeezeSlashes_of_not_hasDS l (by simpa using hl)]

/-- The head survives squeezing. -/
theorem squeezeSlashes_head (x : Char) (r : List Char) :
    ∃ t, squeezeSlashes (x :: r) = x :: t := by
  induction r using squeezeSlashes.induct generalizing x with
  | case1 => exact ⟨[], squeezeSlashes_one x⟩
  | case2 c =>
    by_cases hx : x = '/' ∧ c = '/'
    · obtain ⟨hxx, hc⟩ := hx
      subst hxx hc
      exact ⟨[], by rw [squeezeSlashes_two, squeezeSlashes_one]⟩
    · exact ⟨_, squeezeSlashes_step x c [] hx⟩
  | case3 a b rest h ih =>
    obtain ⟨ha, hb⟩ := h
    subst ha hb
    by_cases hx : x = '/'
    · subst hx
      obtain ⟨t, ht⟩ := ih '/'
      exact ⟨t, by rw [squeezeSlashes_two, ht]⟩
    · exact ⟨_, squeezeSlashes_step x '/' _ (fun hc => hx hc.1)⟩
  | case4 a b rest h ih =>
    by_cases hx : x = '/' ∧ a = '/'
    · obtain ⟨hxx, ha⟩ := hx
      subst hxx ha
      obtain ⟨t, ht⟩ := ih '/'
      exact ⟨t, by rw [squeezeSlashes_two, ht]⟩
    · exact ⟨_, squeezeSlashes_step x a _ hx⟩

theorem hasDS_squeezeSlashes (l : List Char) :
    hasDS (squeezeSlashes l) = false := by
  induction l using squeezeSlashes.induct with
  | case1 => rw [squeezeSlashes_nil]; rfl
  | case2 c => rw [squeezeSlashes_one]; rfl
  | case3 a b rest h ih =>
    obtain ⟨ha, hb⟩ := h
    subst ha hb
    rw [squeezeSlashes_two]
    exact ih
  | case4 a b rest h ih =>
    rw [squeezeSlashes_step a b rest h]
    obtain ⟨t, ht⟩ := squeezeSlashes_head b rest
    rw [ht]
    rw [ht] at ih
    simp only [hasDS, Bool.or_eq_false_iff]
    refine ⟨?_, ih⟩
    by_cases hb : b = '/'
    · have ha : ¬ a = '/' := fun ha => h ⟨ha, hb⟩
      simp [ha]
    · simp [hb]

theorem utf8DecodeReplace_cons (b : Nat) (rest : List Nat) :
    utf8DecodeReplace (b :: rest) =
      (decodeOne b rest).1 :: utf8DecodeReplace (rest.drop (decodeOne b rest).2) := by
  rw [utf8DecodeReplace]

/-- Evaluation of `decodeOne` on an ASCII byte. -/
theorem decodeOne_ascii (b : Nat) (t : List Nat) (h : b < 128) :
    decodeOne b t = (b, 0) := by
  rw [decodeOne.eq_def, if_pos h]

/-- Evaluation of `decodeOne` on a valid two-byte sequence. -/
theorem decodeOne_two (b c1 : Nat) (t : List Nat)
    (hb : 194 ≤ b ∧ b ≤ 223) (hc : 128 ≤ c1 ∧ c1 ≤ 191) :
    decodeOne b (c1 :: t) = ((b - 192) * 64 + (c1 - 128), 1) := by
  rw [decodeOne.eq_def, if_neg (by omega), if_pos hb]
  show (if 128 ≤ c1 ∧ c1 ≤ 191 then ((b - 192) * 64 + (c1 - 128), 1)
        else ((65533 : Nat), (0 : Nat))) = _
  rw [if_pos hc]

/-- Evaluation of `decodeOne` on a valid three-byte sequence. -/
theorem decodeOne_three (b c1 c2 : Nat) (t : List Nat)
    (hb : 224 ≤ b ∧ b ≤ 239) (h1 : contLo b ≤ c1 ∧ c1 ≤ contHi b)
    (h2 : 128 ≤ c2 ∧ c2 ≤ 191) :
    decodeOne b (c1 :: c2 :: t) =
      ((b - 224) * 4096 + (c1 - 128) * 64 + (c2 - 128), 2) := by
  rw [decodeOne.eq_def, if_neg (by omega), if_neg (by omega), if_pos hb]
  show (if contLo b ≤ c1 ∧ c1 ≤ contHi b then
          if 128 ≤ c2 ∧ c2 ≤ 191 then
            ((b - 224) * 4096 + (c1 - 128) * 64 + (c2 - 128), 2)
          else ((65533 : Nat), (1 : Nat))
        else ((65533 : Nat), (0 : Nat))) = _
  rw [if_pos h1, if_pos h2]

/-- Evaluation of `decodeOne` on a valid four-byte sequence. -/
theorem decodeOne_four (b c1 c2 c3 : Nat) (t : List Nat)
    (hb : 240 ≤ b ∧ b ≤ 244) (h1 : contLo b ≤ c1 ∧ c1 ≤ contHi b)
    (h2 : 128 ≤ c2 ∧ c2 ≤ 191) (h3 : 128 ≤ c3 ∧ c3 ≤ 191) :
    decodeOne b (c1 :: c2 :: c3 :: t) =
      ((b - 240) * 262144 + (c1 - 128) * 4096 + (c2 - 128) * 64 + (c3 - 128), 3) := by
  rw [decodeOne.eq_def, if_neg (by omega), if_neg (by omega), if_neg (by omega),
    if_pos hb]
  show (if contLo b ≤ c1 ∧ c1 ≤ contHi b then
          if 128 ≤ c2 ∧ c2 ≤ 191 then
            if 128 ≤ c3 ∧ c3 ≤ 191 then
              ((b - 240) * 262144 + (c1 - 128) * 4096 + (c2 - 128) * 64 + (c3 - 128), 3)
            else ((65533 : Nat), (2 : Nat))
          else ((65533 : Nat), (1 : Nat))
        else ((65533 : Nat), (0 : Nat))) = _
  rw [if_pos h1, if_pos h2, if_pos h3]

/-- Decoding a validly encoded code point in front of any byte tail yields
that code point followed by the decoding of the tail. -/
theorem utf8DecodeReplace_encodeCP (c : Nat) (hv : validScalar c = true)
    (t : List Nat) :
    utf8DecodeReplace (utf8EncodeCP c ++ t) = c :: utf8DecodeReplace t := by
  simp only [validScalar, Bool.and_eq_true, Bool.not_eq_true', Bool.and_eq_false_iff,
    decide_eq_true_eq, decide_eq_false_iff_not, Nat.not_le, Nat.not_lt] at hv
  obtain ⟨hlt, hsur⟩ := hv
  by_cases h1 : c < 128
  · rw [show utf8EncodeCP c = [c] from by rw [utf8EncodeCP, if_pos h1]]
    rw [List.cons_append, List.nil_append, utf8DecodeReplace_cons,
      decodeOne_ascii c t h1, List.drop_zero]
  · by_cases h2 : c < 2048
    · rw [show utf8EncodeCP c = [192 + c / 64, 128 + c % 64] from by
        rw [utf8EncodeCP, if_neg h1, if_pos h2]]
      rw [List.cons_append, List.cons_append, List.nil_append, utf8DecodeReplace_cons,
        decodeOne_two _ _ _ (by omega) (by omega)]
      rw [show (192 + c / 64 - 192) * 64 + (128 + c % 64 - 128) = c from by omega]
      rw [List.drop_succ_cons, List.drop_zero]
    · by_cases h3 : c < 65536
      · rw [show utf8EncodeCP c = [224 + c / 4096, 128 + c / 64 % 64, 128 + c % 64] from by
          rw [utf8EncodeCP, if_neg h1, if_neg h2, if_pos h3]]
        have hcont : contLo (224 + c / 4096) ≤ 128 + c / 64 % 64 ∧
            128 + c / 64 % 64 ≤ contHi (224 + c / 4096) := by
          unfold contLo contHi
          constructor
          · split
            · omega
            · split
              · omega
              · omega
          · split
            · omega
            · split
              · omega
              · omega
        rw [List.cons_append, List.cons_append, List.cons_append, List.nil_append,
          utf8DecodeReplace_cons, decodeOne_three _ _ _ _ (by omega) hcont (by omega)]
        rw [show (224 + c / 4096 - 224) * 4096 + (128 + c / 64 % 64 - 128) * 64 +
            (128 + c % 64 - 128) = c from by omega]
        rw [List.drop_succ_cons, List.drop_succ_cons, List.drop_zero]
      · rw [show utf8EncodeCP c =
            [240 + c / 262144, 128 + c / 4096 % 64, 128 + c / 64 % 64, 128 + c % 64] from by
          rw [utf8EncodeCP, if_neg h1, if_neg h2, if_neg h3]]
        have hcont : contLo (240 + c / 262144) ≤ 128 + c / 4096 % 64 ∧
            128 + c / 4096 % 64 ≤ contHi (240 + c / 262144) := by
          unfold contLo contHi
          constructor
          · split
            · omega
            · split
              · omega
              · omega
          · split
            · omega
            · split
              · omega
              · omega
        rw [List.cons_append, List.cons_append, List.cons_append, List.cons_append,
          List.nil_append, utf8DecodeReplace_cons,
          decodeOne_four _ _ _ _ _ (by omega) hcont (by omega) (by omega)]
        rw [show (240 + c / 262144 - 240) * 262144 + (128 + c / 4096 % 64 - 128) * 4096 +
            (128 + c / 64 % 64 - 128) * 64 + (128 + c % 64 - 128) = c from by omega]
        rw [List.drop_succ_cons, List.drop_succ_cons, List.drop_succ_cons, List.drop_zero]

theorem utf8DecodeReplace_utf8Encode (cs : List Nat)
    (hv : ∀ c ∈ cs, validScalar c = true) :
    utf8DecodeReplace (utf8Encode cs) = cs := by
  induction cs with
  | nil => rw [utf8Encode, utf8DecodeReplace]
  | cons c cs ih =>
    rw [utf8Encode, utf8DecodeReplace_encodeCP c (hv c (List.mem_cons_self c cs)),
      ih (fun x hx => hv x (List.mem_cons_of_mem c hx))]

/-! ### Verified properties -/

/-- The behaviour of `remove` as the spec describes it: the target's type is
read via `stat` before any deletion; a directory goes through the
directory-removal primitive (failing with the non-empty classification when
it has children), a file through the file-removal primitive, and an absent
path reports not-found. -/
def removeSpec (fs : RFS) (p : String) : PyRet Unit × RFS × List TCall :=
  match lookupNode fs p with
  | none => (.err ("Error: Path not found: " ++ p), fs, [.statT p])
  | some .dir =>
    if dirNonempty fs p then
      (.err ("Error: Directory not empty: " ++ p), fs, [.statT p, .rmdirT p])
    else (.val (), eraseNode fs p, [.statT p, .rmdirT p])
  | some (.file _) => (.val (), eraseNode fs p, [.statT p, .unlinkT p])

theorem runApi_none (call : ApiCall) (fs : RFS) :
    runApi call none fs = ⟨notConnectedResp, fs, [], []⟩ := by
  cases call <;> rfl

/-- C1: with no active session (global client `None`), each of the nine
filesystem operations returns the "Not connected" classification with
status 400, makes no transport call, and touches no staging file. -/
theorem no_session_blocks_every_operation :
    ∀ (call : ApiCall) (fs : RFS),
      runApi call none fs = ⟨notConnectedResp, fs, [], []⟩ :=
  runApi_none

/-- C5: `remove` matches the claim's stat-first description: the type is
inspected before any deletion, directories use `rmdir` and files use
`remove`, a non-empty directory yields the "Directory not empty"
classification, and an absent path yields "Path not found". -/
theorem remove_inspects_type_then_dispatches (fs : RFS) (p : String) :
    SFTPClient.remove fs p = removeSpec fs p := by
  unfold SFTPClient.remove removeSpec sftpStat sftpRmdir sftpUnlink
  cases h : lookupNode fs p with
  | none => simp [isOSErrorExc]
  | some n =>
    cases n with
    | file bs =>
      simp only [nodeMode, nodeSize]
      rw [if_neg (show ¬ (S_ISDIR 33188 = true) from by decide)]
    | dir =>
      simp only [nodeMode, nodeSize]
      rw [if_pos (show S_ISDIR 16877 = true from by decide)]
      by_cases hd : dirNonempty fs p = true
      · rw [if_pos hd]
        simp [hd, removeClassify, isOSErrorExc, excMsg,
          show strContainsSub (pyLower "Directory not empty") "not empty" = true from
            by decide]
      · rw [if_neg hd]
        simp [hd]

/-- C7: `_join_path` returns the slash-separated concatenation of its parts
with every run of consecutive slashes collapsed to one (and, being a total
function, its replace loop terminates on every input): the loop result
equals the single-pass collapse, and the result has no double slash. -/
theorem join_path_collapses_slash_runs (parts : List String) :
    SFTPClient.join_path parts =
      String.mk (squeezeSlashes (String.intercalate "/" parts).toList) ∧
    hasDS (SFTPClient.join_path parts).toList = false := by
  constructor
  · unfold SFTPClient.join_path
    rw [collapseLoop_eq_squeezeSlashes]
  · unfold SFTPClient.join_path
    rw [collapseLoop_eq_squeezeSlashes]
    exact hasDS_squeezeSlashes _

/-- C8: `disconnect` always succeeds and is idempotent: from any state —
no session, a live session, or a session whose handles raise on close — it
returns the success response and leaves no active session, and calling it
again from the resulting state does the same. -/
theorem disconnect_succeeds_and_is_idempotent (cur : Option SFTPClientState) :
    disconnect_route cur = (⟨200, true, none, .nothingP⟩, none) ∧
    disconnect_route (disconnect_route cur).2 = (⟨200, true, none, .nothingP⟩, none) := by
  cases cur with
  | none => exact ⟨rfl, rfl⟩
  | some c => exact ⟨rfl, rfl⟩

theorem lookupNode_setNode (fs : RFS) (p : String) (n : Node) :
    lookupNode (setNode fs p n) p = some n := by
  simp [setNode, lookupNode]

/-- C3: a successful `write_file` of text content followed by `read_file`
of the same path with no byte cap returns the original content (for `str`
content the stored bytes are always valid UTF-8, so the replacement decoder
reproduces it exactly). -/
theorem write_then_read_roundtrip (fs : RFS) (path : String) (content : List Nat)
    (fs2 : RFS) (tr : List TCall)
    (h : SFTPClient.write_file fs path content = (.val (), fs2, tr)) :
    SFTPClient.read_file fs2 path none = (content, [.openReadT path]) := by
  unfold SFTPClient.write_file at h
  by_cases hall : content.all validScalar = true
  · rw [if_pos hall] at h
    unfold sftpWriteAll at h
    have hfs2 : fs2 = setNode fs path (.file (utf8Encode content)) := by
      cases hl : lookupNode fs path with
      | none =>
        rw [hl] at h
        exact (Prod.mk.injEq _ _ _ _).mp ((Prod.mk.injEq _ _ _ _).mp h).2 |>.1.symm
      | some n =>
        cases n with
        | file bs =>
          rw [hl] at h
          exact (Prod.mk.injEq _ _ _ _).mp ((Prod.mk.injEq _ _ _ _).mp h).2 |>.1.symm
        | dir =>
          rw [hl] at h
          exact absurd ((Prod.mk.injEq _ _ _ _).mp h).1 (by simp)
    subst hfs2
    unfold SFTPClient.read_file sftpReadAll
    rw [lookupNode_setNode]
    simp [utf8DecodeReplace_utf8Encode content (List.all_eq_true.mp hall)]
  · rw [if_neg hall] at h
    exact absurd ((Prod.mk.injEq _ _ _ _).mp h).1 (by simp)

/-- Witness for C3 at a concrete input: writing "hello" to `/a.txt` on an
empty filesystem succeeds, and reading it back returns "hello". -/
theorem write_then_read_roundtrip_witness :
    SFTPClient.read_file (setNode [] "/a.txt" (.file (utf8Encode (pyStr "hello"))))
      "/a.txt" none = (pyStr "hello", [.openReadT "/a.txt"]) :=
  write_then_read_roundtrip [] "/a.txt" (pyStr "hello")
    (setNode [] "/a.txt" (.file (utf8Encode (pyStr "hello")))) [.openWriteT "/a.txt"]
    (by rfl)

/-- C6: a download whose source path is a directory returns the wrong-type
classification with status 500, performs no transfer (the only transport
call is the `stat`, so the staging buffer is never written), and the
staging buffer created empty at the start is deleted on this failure path. -/
theorem download_of_directory_fails_and_cleans_up (c : SFTPClientState) (fs : RFS)
    (p : String) (hp : p ≠ "") (hdir : lookupNode fs p = some .dir) :
    runApi (.downloadA (some p)) (some c) fs =
      ⟨errResp 500 (pyStr ("Error: '" ++ p ++ "' is a directory")), fs,
        [.statT p], [.tmpCreate, .tmpDelete]⟩ := by
  have hps : strFalsy (some p) = false := by simp [strFalsy, hp]
  have hdl : SFTPClient.download_to_local fs p =
      (.err ("Error: '" ++ p ++ "' is a directory"), [.statT p]) := by
    simp +decide [SFTPClient.download_to_local, sftpStat, hdir, nodeMode, nodeSize]
  simp [runApi, hps, hdl]

/-- Witness for C6: downloading the directory `/d` fails with the wrong-type
message, makes only the `stat` call, and the staging buffer is created and
deleted without ever being written. -/
theorem download_of_directory_witness :
    runApi (.downloadA (some "/d")) (some ⟨"h", 22, "u", "p", true, true, false⟩)
        [("/d", Node.dir)] =
      ⟨errResp 500 (pyStr "Error: '/d' is a directory"), [("/d", Node.dir)],
        [.statT "/d"], [.tmpCreate, .tmpDelete]⟩ := by
  have h := download_of_directory_fails_and_cleans_up
    ⟨"h", 22, "u", "p", true, true, false⟩ [("/d", Node.dir)] "/d"
    (by decide) (by rfl)
  rw [h]
  decide

/-- C9: when a connect request passes validation but the connection attempt
itself fails, the previous session (if any) was already closed before the
attempt, the global client ends up `None` (the prior session is never
restored), the response is a 500 failure — and from that state every
filesystem operation returns "Not connected" without a transport call. -/
theorem failed_connect_leaves_no_session (cur : Option SFTPClientState)
    (req : ConnReq) (e : PyExc)
    (h1 : strFalsy req.host = false) (h2 : strFalsy req.username = false)
    (h3 : req.password.isNone = false) :
    (connect_route cur req (some e)).2.1 = none ∧
    (connect_route cur req (some e)).1.status = 500 ∧
    (connect_route cur req (some e)).1.success = false ∧
    (connect_route cur req (some e)).2.2 =
      closeEvs cur ++ [CEvent.attempted (req.host.getD "") (req.port.getD 22)
        (req.username.getD "") (req.password.getD "")] ∧
    (∀ call fs, runApi call none fs = ⟨notConnectedResp, fs, [], []⟩) := by
  have hcond : (strFalsy req.host || strFalsy req.username || req.password.isNone) = false := by
    rw [h1, h2, h3]
    rfl
  unfold connect_route
  rw [hcond]
  cases e <;>
    exact ⟨rfl, rfl, rfl, rfl, runApi_none⟩

/-- Witness for C9: with a live session and a failing authentication, the
route closes the old session, attempts the new one, ends with no session,
and a subsequent listing is rejected as not connected. -/
theorem failed_connect_witness :
    (connect_route (some ⟨"old", 22, "u0", "p0", true, true, false⟩)
        ⟨some "h", none, some "u", some "p"⟩ (some (.authentication "denied"))).2.1
      = none ∧
    (connect_route (some ⟨"old", 22, "u0", "p0", true, true, false⟩)
        ⟨some "h", none, some "u", some "p"⟩ (some (.authentication "denied"))).2.2
      = [CEvent.closedPrev, CEvent.attempted "h" 22 "u" "p"] ∧
    runApi (.listA none) none [] = ⟨notConnectedResp, [], [], []⟩ := by
  have h := failed_connect_leaves_no_session
    (some ⟨"old", 22, "u0", "p0", true, true, false⟩)
    ⟨some "h", none, some "u", some "p"⟩ (.authentication "denied") rfl rfl rfl
  exact ⟨h.1, by rw [h.2.2.2.1]; rfl, h.2.2.2.2 (.listA none) []⟩

/-- C10: the connect endpoint rejects a request whose host or username is
missing or empty, or whose password field is absent — before any session
teardown or connection attempt, leaving the state untouched — while an
empty-string password passes validation and is forwarded to the
authentication attempt. -/
theorem connect_validation_and_empty_password (cur : Option SFTPClientState)
    (req : ConnReq) (env : Option PyExc) :
    ((strFalsy req.host || strFalsy req.username || req.password.isNone) = true →
      connect_route cur req env =
        (errResp 400 (pyStr "host, username and password required"), cur, [])) ∧
    (strFalsy req.host = false → strFalsy req.username = false →
      req.password = some "" →
      (connect_route cur req env).2.2 =
        closeEvs cur ++ [CEvent.attempted (req.host.getD "") (req.port.getD 22)
          (req.username.getD "") ""]) := by
  constructor
  · intro hcond
    unfold connect_route
    rw [hcond]
    rfl
  · intro h1 h2 h3
    have hcond : (strFalsy req.host || strFalsy req.username || req.password.isNone)
        = false := by
      rw [h1, h2, h3]
      rfl
    unfold connect_route
    rw [hcond, h3]
    cases env with
    | none => rfl
    | some e => cases e <;> rfl

/-- Witness for C10: a request without a password field is rejected with no
teardown, and a request with the empty-string password reaches the attempt
with that empty password. -/
theorem connect_validation_witness :
    connect_route none ⟨some "h", none, some "u", none⟩ none =
      (errResp 400 (pyStr "host, username and password required"), none, []) ∧
    (connect_route none ⟨some "h", none, some "u", some ""⟩ none).2.2 =
      [CEvent.attempted "h" 22 "u" ""] :=
  ⟨(connect_validation_and_empty_password none ⟨some "h", none, some "u", none⟩ none).1
      rfl,
    (connect_validation_and_empty_password none ⟨some "h", none, some "u", some ""⟩
      none).2 rfl rfl rfl⟩

/-- C4 (code bug): a file whose stored content itself starts with "Error:"
is read back successfully by `read_file` (first conjunct), yet `api_read`'s
in-band prefix test classifies that successful read as a failure with
status 500 (second conjunct), contradicting the spec's rule that a
successful read is a success payload regardless of the file's content. -/
theorem successful_read_misclassified_as_failure :
    SFTPClient.read_file [("/f", Node.file (utf8Encode (pyStr "Error: oops")))]
        "/f" none = (pyStr "Error: oops", [TCall.openReadT "/f"]) ∧
    (runApi (.readA (some "/f") none) (some ⟨"h", 22, "u", "p", true, true, false⟩)
        [("/f", Node.file (utf8Encode (pyStr "Error: oops")))]).resp
      = errResp 500 (pyStr "Error: oops") := by
  have h1 : SFTPClient.read_file [("/f", Node.file (utf8Encode (pyStr "Error: oops")))]
      "/f" none = (pyStr "Error: oops", [TCall.openReadT "/f"]) := by
    simp +decide [SFTPClient.read_file, sftpReadAll, lookupNode,
      utf8DecodeReplace_utf8Encode (pyStr "Error: oops") (by decide)]
  refine ⟨h1, ?_⟩
  simp +decide [runApi, strFalsy, h1]

theorem cpLE_total : ∀ (x y : List Nat), (cpLE x y || cpLE y x) = true := by
  intro x
  induction x with
  | nil => intro y; simp [cpLE]
  | cons a as ih =>
    intro y
    cases y with
    | nil => simp [cpLE]
    | cons b bs =>
      by_cases hab : a < b
      · simp [cpLE, hab]
      · by_cases hba : b < a
        · simp [cpLE, hab, hba]
        · simp [cpLE, hab, hba]
          exact (Bool.or_eq_true _ _).mp (ih bs)

theorem cpLE_trans : ∀ (x y z : List Nat),
    cpLE x y = true → cpLE y z = true → cpLE x z = true := by
  intro x
  induction x with
  | nil => intro y z _ _; rfl
  | cons a as ih =>
    intro y z h1 h2
    cases y with
    | nil => simp [cpLE] at h1
    | cons b bs =>
      cases z with
      | nil => simp [cpLE] at h2
      | cons c cs =>
        by_cases hab : a < b
        · by_cases hbc : b < c
          · simp [cpLE, show a < c from lt_trans hab hbc]
          · by_cases hcb : c < b
            · simp [cpLE, hbc, hcb] at h2
            · simp [cpLE, show a < c from by omega]
        · by_cases hba : b < a
          · simp [cpLE, hab, hba] at h1
          · have hab2 : a = b := by omega
            subst hab2
            simp only [cpLE, if_neg hab, if_neg hba] at h1
            by_cases hbc : a < c
            · simp [cpLE, hbc]
            · by_cases hcb : c < a
              · simp [cpLE, hbc, hcb] at h2
              · simp only [cpLE, if_neg hbc, if_neg hcb] at h2 ⊢
                exact ih bs cs h1 h2

theorem cpLE_antisymm : ∀ (x y : List Nat),
    cpLE x y = true → cpLE y x = true → x = y := by
  intro x
  induction x with
  | nil =>
    intro y h1 h2
    cases y with
    | nil => rfl
    | cons b bs => simp [cpLE] at h2
  | cons a as ih =>
    intro y h1 h2
    cases y with
    | nil => simp [cpLE] at h1
    | cons b bs =>
      by_cases hab : a < b
      · simp [cpLE, hab, show ¬ b < a from by omega] at h2
      · by_cases hba : b < a
        · simp [cpLE, hab, hba] at h1
        · have hab2 : a = b := by omega
          subst hab2
          simp only [cpLE, if_neg hab, if_neg hba] at h1 h2
          rw [ih bs h1 h2]

theorem itemLE_trans (a b c : ListItem) (h1 : itemLE a b = true)
    (h2 : itemLE b c = true) : itemLE a c = true := by
  cases ha : a.is_dir <;> cases hb : b.is_dir <;> cases hc : c.is_dir <;>
      simp_all [itemLE] <;>
    exact cpLE_trans _ _ _ h1 h2

theorem itemLE_total (a b : ListItem) : (itemLE a b || itemLE b a) = true := by
  cases ha : a.is_dir <;> cases hb : b.is_dir <;> simp_all [itemLE] <;>
    exact (Bool.or_eq_true _ _).mp (cpLE_total _ _)

theorem itemLE_antisymm_key (a b : ListItem) (h1 : itemLE a b = true)
    (h2 : itemLE b a = true) : itemKey a = itemKey b := by
  unfold itemKey
  unfold itemLE at h1 h2
  by_cases hd : a.is_dir = b.is_dir
  · rw [if_pos hd] at h1
    rw [if_pos hd.symm] at h2
    have e : pyStr (pyLower a.name) = pyStr (pyLower b.name) :=
      cpLE_antisymm _ _ h1 h2
    rw [hd, e]
  · rw [if_neg hd] at h1
    rw [if_neg (fun hx => hd hx.symm)] at h2
    exact absurd (h1.trans h2.symm) hd

/-- A list sorted by `itemLE` whose sort keys are pairwise distinct is the
unique such arrangement of its entries. -/
theorem sortedKeyed_unique : ∀ (l1 l2 : List ListItem),
    l1.Pairwise (fun a b => itemLE a b = true) →
    l2.Pairwise (fun a b => itemLE a b = true) →
    l1.Perm l2 → (l1.map itemKey).Nodup → l1 = l2 := by
  intro l1
  induction l1 with
  | nil =>
    intro l2 _ _ hp _
    exact (hp.symm.eq_nil).symm ▸ rfl
  | cons a t1 ih =>
    intro l2 hs1 hs2 hp hn
    cases l2 with
    | nil => exact absurd hp.eq_nil (by simp)
    | cons b t2 =>
      rw [List.map_cons] at hn
      have hnc := List.nodup_cons.mp hn
      have hbeq : b = a := by
        rcases List.mem_cons.mp (hp.mem_iff.mpr (List.mem_cons_self b t2)) with h | hbt1
        · exact h
        · have hLab : itemLE a b = true := (List.pairwise_cons.mp hs1).1 b hbt1
          rcases List.mem_cons.mp (hp.mem_iff.mp (List.mem_cons_self a t1)) with h | hat2
          · exact h.symm
          · have hLba : itemLE b a = true := (List.pairwise_cons.mp hs2).1 a hat2
            have hk : itemKey a = itemKey b := itemLE_antisymm_key a b hLab hLba
            have hmemk : itemKey b ∈ t1.map itemKey := List.mem_map_of_mem itemKey hbt1
            rw [← hk] at hmemk
            exact absurd hmemk hnc.1
      subst hbeq
      have hp2 : t1.Perm t2 := hp.cons_inv
      rw [ih t2 (List.pairwise_cons.mp hs1).2 (List.pairwise_cons.mp hs2).2 hp2 hnc.2]

/-- C2 (amended): every listing is sorted by the two-key comparator
(directories first, then case-insensitive name) and contains exactly the
items built from the transport's entries; and whenever no two entries share
a sort key, the result is independent of the transport's enumeration
order.  (Without the distinct-key proviso determinism fails; see the
counterexample.) -/
theorem listdir_sorted_and_deterministic (path : String)
    (attrs attrs2 : List SFTPAttr) :
    (listdirFromAttrs path attrs).Pairwise (fun a b => itemLE a b = true) ∧
    (listdirFromAttrs path attrs).Perm (attrs.map (itemOfAttr path)) ∧
    (attrs.Perm attrs2 →
      ((attrs.map (itemOfAttr path)).map itemKey).Nodup →
      listdirFromAttrs path attrs = listdirFromAttrs path attrs2) := by
  refine ⟨List.sorted_mergeSort (fun a b c => itemLE_trans a b c)
      (fun a b => itemLE_total a b) _, List.mergeSort_perm _ _, ?_⟩
  intro hperm hnodup
  have hm : (attrs.map (itemOfAttr path)).Perm (attrs2.map (itemOfAttr path)) :=
    hperm.map _
  have hp12 : (listdirFromAttrs path attrs).Perm (listdirFromAttrs path attrs2) :=
    ((List.mergeSort_perm _ _).trans hm).trans (List.mergeSort_perm _ _).symm
  have hn1 : ((listdirFromAttrs path attrs).map itemKey).Nodup :=
    (((List.mergeSort_perm (attrs.map (itemOfAttr path)) itemLE).map
      itemKey).nodup_iff).mpr hnodup
  exact sortedKeyed_unique _ _
    (List.sorted_mergeSort (fun a b c => itemLE_trans a b c)
      (fun a b => itemLE_total a b) _)
    (List.sorted_mergeSort (fun a b c => itemLE_trans a b c)
      (fun a b => itemLE_total a b) _)
    hp12 hn1

/-- Counterexample for C2 as stated: the same set of entries ("Foo" and
"foo", whose sort keys tie case-insensitively) listed in two transport
orders produces two different listings, because the stable sort preserves
the arrival order of tied keys — so the result is not determined by the set
of entries alone. -/
theorem listdir_not_deterministic_counterexample :
    (([⟨"Foo", 33188, 1, 0⟩, ⟨"foo", 33188, 2, 0⟩] : List SFTPAttr).Perm
      [⟨"foo", 33188, 2, 0⟩, ⟨"Foo", 33188, 1, 0⟩]) ∧
    listdirFromAttrs "/" [⟨"Foo", 33188, 1, 0⟩, ⟨"foo", 33188, 2, 0⟩] ≠
      listdirFromAttrs "/" [⟨"foo", 33188, 2, 0⟩, ⟨"Foo", 33188, 1, 0⟩] := by
  constructor
  · exact List.Perm.swap _ _ _
  · unfold listdirFromAttrs
    simp only [List.map_cons, List.map_nil]
    rw [List.mergeSort_of_sorted
      (List.Pairwise.cons (fun b hb => by
          rw [List.mem_singleton] at hb
          subst hb
          decide)
        (List.Pairwise.cons (fun b hb => absurd hb (List.not_mem_nil b))
          List.Pairwise.nil))]
    rw [List.mergeSort_of_sorted
      (List.Pairwise.cons (fun b hb => by
          rw [List.mem_singleton] at hb
          subst hb
          decide)
        (List.Pairwise.cons (fun b hb => absurd hb (List.not_mem_nil b))
          List.Pairwise.nil))]
    intro h
    have hname := congrArg (fun l => match l with
      | x :: _ => x.name
      | [] => "") h
    simp only [itemOfAttr] at hname
    exact absurd hname (by decide)

/-- Witness for C2: a directory and a file with distinct keys produce the
same listing from either transport order. -/
theorem listdir_deterministic_witness :
    listdirFromAttrs "/" [⟨"docs", 16877, 0, 0⟩, ⟨"a.txt", 33188, 3, 5⟩] =
      listdirFromAttrs "/" [⟨"a.txt", 33188, 3, 5⟩, ⟨"docs", 16877, 0, 0⟩] :=
  (listdir_sorted_and_deterministic "/" [⟨"docs", 16877, 0, 0⟩, ⟨"a.txt", 33188, 3, 5⟩]
    [⟨"a.txt", 33188, 3, 5⟩, ⟨"docs", 16877, 0, 0⟩]).2.2
    (List.Perm.swap _ _ _) (by decide)
